import Mathlib

/-!
Verification development for the companion-backend task-orchestration and
protocol-state engine.  The Python services are shallowly embedded as pure
Lean functions over explicit state:

* `ProtocolStore`   — the `protocol_events` table (app/services/protocol.py,
  app/services/memory.py); events are kept newest-first, mirroring the
  `ORDER BY timestamp DESC` used by every query.
* `CodexStore`      — the `codex_entries` table as used by
  app/services/relational_state.py and the memory handler; entries are kept
  newest-first, mirroring `ORDER BY created_at DESC`.
* `ArchiveState`    — the class-level volatile counters of
  app/services/archive_service.py.
* handler functions — app/services/intent_handlers/memory_handler.py and
  command_handler.py.
* `LlmContextManager.get_answer_messages` — app/utils/llm_context_v2.py.
* `TaskOrchestrator.execute_plan` — app/services/task_orchestrator.py.

Python exceptions are modelled with `Except PyErr`; a Python local variable
that may be read before assignment is modelled as an `Option` that is `none`
while unassigned, and reading it while `none` raises `.unboundLocalError`,
matching CPython semantics.  Logging calls are not modelled.  External
effects (embedding generation, LLM calls) are passed in as function
parameters so every definition stays executable.
-/

/-- Python exceptions that the embedded code can raise. -/
inductive PyErr where
  /-- `UnboundLocalError`: a local read before any assignment. -/
  | unboundLocalError : PyErr
  /-- `AttributeError` from calling a method on `None` (e.g. `None.query`). -/
  | attributeErrorNoneQuery : PyErr
  /-- `InputTooLongError` raised by `LlmContextManager`. -/
  | inputTooLong : PyErr
  /-- `CommandExecutionError` with its message. -/
  | commandExecutionError (msg : String) : PyErr
  /-- `TaskOrchestrationError` with its message. -/
  | taskOrchestrationError (msg : String) : PyErr
  /-- `DocumentProcessingError` from the memory service. -/
  | documentProcessingError (msg : String) : PyErr
  /-- `DatabaseOperationError` from the storage layer. -/
  | databaseOperationError (msg : String) : PyErr
  /-- FastAPI `HTTPException` (legacy path in the memory handler). -/
  | httpException (msg : String) : PyErr
  deriving Repr, DecidableEq

/-- `str(e)` for the exceptions we model, as used in error-message
interpolation by the handlers. -/
def pyErrStr : PyErr → String
  | .unboundLocalError => "cannot access local variable where it is not associated with a value"
  | .attributeErrorNoneQuery => "'NoneType' object has no attribute 'query'"
  | .inputTooLong => "input too long"
  | .commandExecutionError m => m
  | .taskOrchestrationError m => m
  | .documentProcessingError m => m
  | .databaseOperationError m => m
  | .httpException m => m

/-- Python `str.lower()` (ASCII case folding suffices for the modelled
strings). -/
def lowerStr (s : String) : String := ⟨s.data.map Char.toLower⟩

/-- Python `str.strip()`: drop whitespace from both ends. -/
def stripStr (s : String) : String :=
  ⟨((s.data.dropWhile Char.isWhitespace).reverse.dropWhile Char.isWhitespace).reverse⟩

/-- Whether `needle` occurs as a contiguous sublist, at any offset. -/
def containsSubstrAux (needle : List Char) : List Char → Bool
  | [] => needle.isEmpty
  | c :: rest => needle.isPrefixOf (c :: rest) || containsSubstrAux needle rest

/-- Python `needle in haystack` for strings: substring containment. -/
def containsSubstr (haystack needle : String) : Bool :=
  containsSubstrAux needle.data haystack.data

/-- Python `str.startswith`. -/
def startsWithStr (s p : String) : Bool := p.data.isPrefixOf s.data

/-- Python `sep.join(parts)`. -/
def joinWith (sep : String) : List String → String
  | [] => ""
  | [x] => x
  | x :: y :: rest => x ++ sep ++ joinWith sep (y :: rest)

/-- Python truthiness of an optional list (`None` and `[]` are falsy). -/
def listTruthy {α : Type} : Option (List α) → Bool
  | none => false
  | some l => !l.isEmpty

/- ===================== Protocol event store =====================
   app/services/protocol.py and the identical copies in
   app/services/memory.py.  `details` carries the string-keyed payload;
   only the keys the claims observe are kept. -/

/-- A row of the `protocol_events` table. -/
structure ProtocolEvent where
  id : Nat
  eventType : String
  active : Bool
  timestamp : Nat
  details : List (String × String)
  deriving Repr, DecidableEq

/-- The `protocol_events` table.  `events` is kept newest-first (strictly
descending `timestamp`), which is how every query orders it; `nextId` and
`now` model UUID generation and the clock. -/
structure ProtocolStore where
  events : List ProtocolEvent
  nextId : Nat
  now : Nat
  deriving Repr, DecidableEq

/-- `create_protocol_event`: append a new event (it becomes the most
recent one). -/
def create_protocol_event (p : ProtocolStore) (eventType : String)
    (active : Bool) (details : List (String × String)) : ProtocolStore :=
  { events := ⟨p.nextId, eventType, active, p.now, details⟩ :: p.events
    nextId := p.nextId + 1
    now := p.now + 1 }

/-- `get_active_protocol_event`: most recent event of the type with
`active = true` (the list is newest-first). -/
def get_active_protocol_event (p : ProtocolStore) (eventType : String) :
    Option ProtocolEvent :=
  p.events.find? fun e => e.eventType == eventType && e.active

/-- Set `active := false` on the first row with the given id, as the
`UPDATE ... WHERE id = :id` of `deactivate_protocol_event` does. -/
def deactivateInList : List ProtocolEvent → Nat → List ProtocolEvent
  | [], _ => []
  | e :: rest, i =>
      if e.id = i then { e with active := false } :: rest
      else e :: deactivateInList rest i

/-- `deactivate_protocol_event`. -/
def deactivate_protocol_event (p : ProtocolStore) (eventId : Nat) : ProtocolStore :=
  { p with events := deactivateInList p.events eventId }

/-- `list_protocol_events db event_type=t active=a` (no paging in any call
site the claims touch). -/
def list_protocol_events (p : ProtocolStore) (eventType : String)
    (active : Bool) : List ProtocolEvent :=
  p.events.filter fun e => e.eventType == eventType && e.active == active

/-- Number of active events of a type currently in the store. -/
def countActive (p : ProtocolStore) (eventType : String) : Nat :=
  (p.events.filter fun e => e.eventType == eventType && e.active).length

/- ===================== Codex entry store =====================
   The `codex_entries` table as seen by app/services/relational_state.py
   and the memory handler.  `meta` is a string-keyed dict in the source;
   the keys the claims observe (`field`, `closed`, `archetype`) are
   modelled as optional fields.  `event_date` and the embedding vector are
   observed by no claim and omitted. -/

/-- A row of the `codex_entries` table. -/
structure CodexEntry where
  id : Nat
  type : String
  content : String
  tags : List String
  entities : List String
  metaField : Option String
  metaClosed : Option Bool
  metaArchetype : Option String
  archived : Bool
  protocolFlags : List String
  deriving Repr, DecidableEq

/-- The `codex_entries` table, newest-first (`created_at DESC`). -/
structure CodexStore where
  entries : List CodexEntry
  nextId : Nat
  deriving Repr, DecidableEq

/-- `create_codex_entry`: insert a new entry and return it with its id. -/
def create_codex_entry (s : CodexStore) (e : CodexEntry) : CodexStore × Nat :=
  ({ entries := { e with id := s.nextId } :: s.entries, nextId := s.nextId + 1 },
   s.nextId)

/-- `field.strip().lower()` as used in `get_closed_fields` and
`is_field_closed`. -/
def normField (s : String) : String := lowerStr (stripStr s)

/-- `f.lower().strip()` as used by the memory handler's closed-field
check (same result, the source applies the two steps in this order
there). -/
def normFieldLS (s : String) : String := stripStr (lowerStr s)

/-- An entry returned by the `get_closed_fields` query: type
`relational_state` and tag `closed_fields`. -/
def isClosedFieldsEntry (e : CodexEntry) : Bool :=
  e.type == "relational_state" && e.tags.contains "closed_fields"

/-- The contribution of one entry to the `closed` set of
`get_closed_fields`: its normalized field name when `meta.closed` is
truthy (entries without a `field` key are skipped). -/
def closedMark (e : CodexEntry) : Option String :=
  match e.metaField with
  | some f => if e.metaClosed == some true then some (normField f) else none
  | none => none

/-- The contribution of one entry to the `reopened` set of
`get_closed_fields`: its normalized field name when `meta.closed` is
falsy (absent or `false`). -/
def reopenedMark (e : CodexEntry) : Option String :=
  match e.metaField with
  | some f => if e.metaClosed == some true then none else some (normField f)
  | none => none

/-- `get_closed_fields` (relational_state.py lines 119-144): scan every
`relational_state`/`closed_fields` entry, put the normalized field name in
`closed` when `meta.closed` is truthy and in `reopened` otherwise, and
return `closed - reopened`. -/
def get_closed_fields (s : CodexStore) : List String :=
  let entries := s.entries.filter isClosedFieldsEntry
  let closed := entries.filterMap closedMark
  let reopened := entries.filterMap reopenedMark
  closed.filter fun x => !reopened.contains x

/-- `is_field_closed`. -/
def is_field_closed (s : CodexStore) (field : String) : Bool :=
  (get_closed_fields s).contains (normField field)

/-- `close_relational_field`: persist a `relational_state` entry with
`meta.closed = true`. -/
def close_relational_field (s : CodexStore) (field : String) : CodexStore × Nat :=
  create_codex_entry s
    { id := 0
      type := "relational_state"
      content := "Relational field closed: " ++ field
      tags := ["closed_fields"]
      entities := [field]
      metaField := some field
      metaClosed := some true
      metaArchetype := none
      archived := false
      protocolFlags := [] }

/-- `reopen_relational_field`: persist a `relational_state` entry with
`meta.closed = false`. -/
def reopen_relational_field (s : CodexStore) (field : String) : CodexStore × Nat :=
  create_codex_entry s
    { id := 0
      type := "relational_state"
      content := "Relational field reopened: " ++ field
      tags := ["closed_fields"]
      entities := [field]
      metaField := some field
      metaClosed := some false
      metaArchetype := none
      archived := false
      protocolFlags := [] }

/-- `set_active_archetype`: persist a `relational_state` entry carrying an
archetype value. -/
def set_active_archetype (s : CodexStore) (archetype : String) : CodexStore × Nat :=
  create_codex_entry s
    { id := 0
      type := "relational_state"
      content := "Active archetype set to: " ++ archetype
      tags := ["active_archetype"]
      entities := [archetype]
      metaField := none
      metaClosed := none
      metaArchetype := some archetype
      archived := false
      protocolFlags := [] }

/-- `get_current_active_archetype`: most recent `relational_state` entry
tagged `active_archetype`. -/
def get_current_active_archetype (s : CodexStore) : Option String :=
  match s.entries.find? fun e =>
      e.type == "relational_state" && e.tags.contains "active_archetype" with
  | some e => e.metaArchetype
  | none => none

/-- Modelled from the spec (§3 RelationalFieldState), for comparison with
`get_closed_fields`: the `closed` value of the most recent
`relational_state` event referencing the (normalized) name. -/
def specLastRelationalClosed (s : CodexStore) (name : String) : Option Bool :=
  match s.entries.find? fun e =>
      isClosedFieldsEntry e &&
      (match e.metaField with
       | some f => normField f == name
       | none => false) with
  | some e => e.metaClosed
  | none => none

/- ===================== Archive service =====================
   app/services/archive_service.py.  The class-level attributes
   `_archive_mode_count` / `_archive_mode_except_ids` /
   `_archive_mode_except_tags` are the volatile `ArchiveState`.
   Event `details` payloads are not observed by any claim and are
   stored as empty maps. -/

/-- The class-level volatile counters of `ArchiveService`. -/
structure ArchiveState where
  count : Option Int
  exceptIds : Option (List Nat)
  exceptTags : Option (List String)
  deriving Repr, DecidableEq

/-- `ArchiveService.activate_archive_mode`: set the class counters and
record an active `archive_mode` protocol event. -/
def activate_archive_mode (_ar : ArchiveState) (p : ProtocolStore)
    (count : Option Int) (exceptIds : Option (List Nat))
    (exceptTags : Option (List String)) : ArchiveState × ProtocolStore :=
  ({ count := count
     exceptIds := some (exceptIds.getD [])
     exceptTags := some (exceptTags.getD []) },
   create_protocol_event p "archive_mode" true [])

/-- `ArchiveService.deactivate_archive_mode`.  The `db` argument is
optional because `should_archive_on_create` passes the literal `None`;
`get_active_protocol_event(None, ...)` then evaluates `None.query`,
raising `AttributeError` before the class counters are cleared. -/
def deactivate_archive_mode (_ar : ArchiveState) (db : Option ProtocolStore) :
    Except PyErr (ArchiveState × ProtocolStore) :=
  match db with
  | none => .error .attributeErrorNoneQuery
  | some p =>
      let p' := match get_active_protocol_event p "archive_mode" with
        | some e => deactivate_protocol_event p e.id
        | none => p
      .ok ({ count := none, exceptIds := none, exceptTags := none }, p')

/-- `ArchiveService.should_archive_on_create`.  Returns the raised
exception or the decision, together with the class counters as they stand
afterwards (in Python the mutation survives the exception). -/
def should_archive_on_create (ar : ArchiveState) (entryId : Option Nat)
    (tags : Option (List String)) : Except PyErr Bool × ArchiveState :=
  match ar.count with
  | some c =>
      if c > 0 then
        if entryId.isSome && listTruthy ar.exceptIds &&
            (ar.exceptIds.getD []).contains (entryId.getD 0) then
          (.ok false, ar)
        else if listTruthy tags && listTruthy ar.exceptTags &&
            ((ar.exceptTags.getD []).any fun t => (tags.getD []).contains t) then
          (.ok false, ar)
        else
          let ar' := { ar with count := some (c - 1) }
          if c - 1 = 0 then
            match deactivate_archive_mode ar' none with
            | .error e => (.error e, ar')
            | .ok (ar'', _) => (.ok true, ar'')
          else (.ok true, ar')
      else (.ok false, ar)
  | none => (.ok false, ar)

/-- `list(set(flags + [flag]))` as used when archiving entries (modelled
up to the set's membership semantics). -/
def addFlag (flags : List String) (flag : String) : List String :=
  if flags.contains flag then flags else flags ++ [flag]

/-- `ArchiveService.archive_entries_by_ids`. -/
def archive_entries_by_ids (s : CodexStore) (p : ProtocolStore)
    (ids : List Nat) : CodexStore × ProtocolStore :=
  ({ s with entries := s.entries.map fun e =>
      if ids.contains e.id then
        { e with archived := true,
                 protocolFlags := addFlag e.protocolFlags "archived_by_command" }
      else e },
   create_protocol_event p "archive_item" false [])

/-- `ArchiveService.archive_entries_by_tag`. -/
def archive_entries_by_tag (s : CodexStore) (p : ProtocolStore)
    (tag : String) : CodexStore × ProtocolStore :=
  ({ s with entries := s.entries.map fun e =>
      if e.tags.contains tag && !e.archived then
        { e with archived := true,
                 protocolFlags := addFlag e.protocolFlags "archived_by_tag" }
      else e },
   create_protocol_event p "archive_by_tag" false [])

/-- `ArchiveService.archive_all_except`. -/
def archive_all_except (s : CodexStore) (p : ProtocolStore)
    (exceptIds : Option (List Nat)) (exceptTags : Option (List String)) :
    CodexStore × ProtocolStore :=
  ({ s with entries := s.entries.map fun e =>
      if !e.archived &&
         !(listTruthy exceptIds && (exceptIds.getD []).contains e.id) &&
         !((exceptTags.getD []).any fun t => e.tags.contains t) then
        { e with archived := true,
                 protocolFlags := addFlag e.protocolFlags "archived_by_except" }
      else e },
   create_protocol_event p "archive_all_except" false [])

/- ===================== Shared system state ===================== -/

/-- The state a handler can reach through its `db` session plus the
class-level archive counters. -/
structure Sys where
  codex : CodexStore
  protocol : ProtocolStore
  archive : ArchiveState
  deriving Repr, DecidableEq

/-- The `context_snapshot` dict: only the keys the claims observe.
`protocolBlockedMemory` holds the blocked field name when the
`protocol_blocked_memory` key is present. -/
structure Snapshot where
  protocolBlockedMemory : Option String
  memoryCreationDetails : Option Nat
  deriving Repr, DecidableEq

/-- Append to the accumulated `llm_call_error` string with `"; "`. -/
def appendErr (cur : Option String) (msg : String) : Option String :=
  some ((match cur with | some c => c ++ "; " | none => "") ++ msg)

/-- Reading `companion_response_content` at a `return` statement: if the
local was never assigned, CPython raises `UnboundLocalError`. -/
def readLocalResponse (resp : Option String) (lid : Option Nat)
    (err : Option String) : Except PyErr (String × Option Nat × Option String) :=
  match resp with
  | some r => .ok (r, lid, err)
  | none => .error .unboundLocalError

/- ===================== Memory intent handler =====================
   app/services/intent_handlers/memory_handler.py.  `generate_embedding`
   is an external service and is passed in as a function; entity dicts are
   modelled by their `"text"` values (the validation loop of lines 166-178
   only normalizes their shape); the archetype override of lines 108-114
   rewrites a parameter that nothing later reads and is omitted;
   `event_date` parsing (lines 116-139) feeds a column no claim observes
   and is omitted. -/

/-- The task/classification fields read by the memory handler. -/
structure MemParams where
  intent : Option String
  memoryContent : Option String
  memoryType : Option String
  memoryTags : List String
  extractedEntities : List String
  protocolFlags : List String
  deriving Repr, DecidableEq

/-- The response/error strings of the four `except` branches of the
memory handler (lines 237-261): the user-visible text (used only when
silence is not active) and the detail appended to the error string. -/
def memExceptTexts (intent : String) (e : PyErr) : String × String :=
  match e with
  | .documentProcessingError m =>
      ("Received, Michael. I tried to record this memory, but a service error occurred: " ++ m,
       "Service error during memory creation (" ++ intent ++ "): " ++ m)
  | .databaseOperationError m =>
      ("Received, Michael. I tried to record this memory, but a database error occurred.",
       "Database error during memory creation (" ++ intent ++ "): " ++ m)
  | .httpException m =>
      ("Received, Michael. I tried to record this memory, but an API error occurred: " ++ m,
       "Failed to save memory due to an API error: " ++ m)
  | _ =>
      ("Received, Michael. I tried to record this memory, but an unexpected internal error occurred.",
       "Unexpected error during memory creation (" ++ intent ++ "): " ++ pyErrStr e)

/-- `mem_content` after the user-query fallback of lines 141-146 (`""`
standing for Python's empty-or-missing value). -/
def memEffectiveContent (uq : String) (params : MemParams) : String :=
  let mc0 := params.memoryContent.getD ""
  if mc0 = "" && params.intent.getD "MEMORY" == "MEMORY" then uq else mc0

/-- `mem_tags` after the forced-archive tag injection of lines 160-163. -/
def memEffectiveTags (params : MemParams) : List String :=
  if params.intent.getD "MEMORY" == "FORCED_ARCHIVE_MEMORY" &&
      !params.memoryTags.contains "auto_archived_by_protocol" then
    params.memoryTags ++ ["auto_archived_by_protocol"]
  else params.memoryTags

/-- `handle_memory_intent`.  Returns the Python return value (or the
escaping exception) together with the state and snapshot as left behind. -/
def handle_memory_intent (gen_embedding : String → Except PyErr (List Int))
    (sys : Sys) (user_query : String) (params : MemParams) (snap : Snapshot)
    (silence_effectively_active : Bool) (current_llm_call_error : Option String) :
    Except PyErr (String × Option Nat × Option String) × Sys × Snapshot :=
  -- companion_response_content starts unassigned; linked_codex_id = None.
  let intent := params.intent.getD "MEMORY"
  -- Relational state enforcement (lines 85-106).
  let closed_fields := (get_closed_fields sys.codex).map normFieldLS
  match params.extractedEntities.find?
      (fun field => closed_fields.contains (normFieldLS field)) with
  | some field =>
      let protocol_message :=
        "The field ’" ++ field ++ "’ is sealed. No new memory may be recorded for it unless explicitly reopened."
      let err := appendErr current_llm_call_error
        ("Attempted to create memory for closed field: " ++ field ++ ".")
      (.ok (protocol_message, none, err), sys,
       { snap with protocolBlockedMemory := some field })
  | none =>
    -- Content extraction and fallback (lines 141-154).
    let mem_content := memEffectiveContent user_query params
    if mem_content = "" || stripStr mem_content = "" then
      let resp := if !silence_effectively_active then
          some "Received, Michael. I tried to record this, but there was no content to save."
        else none
      let err := appendErr current_llm_call_error
        "Memory content was empty and could not be recorded."
      (readLocalResponse resp none err, sys, snap)
    else
      -- Type and tags (lines 156-163).
      let default_type := if intent == "FORCED_ARCHIVE_MEMORY" then
          "archived_item_protocol" else "observation_agent"
      let mem_type := if params.memoryType.getD "" = "" then default_type
        else params.memoryType.getD ""
      let mem_tags := memEffectiveTags params
      -- try: Step 1, embedding (line 195).
      match gen_embedding mem_content with
      | .error e =>
          let (respText, detail) := memExceptTexts intent e
          let resp := if !silence_effectively_active then some respText else none
          (readLocalResponse resp none (appendErr current_llm_call_error detail),
           sys, snap)
      | .ok embedding =>
        if embedding.isEmpty then
          let resp := if !silence_effectively_active then
              some "Received, Michael. I tried to record this memory, but an internal error occurred during embedding generation."
            else none
          let err := appendErr current_llm_call_error
            "Embedding generation failed for memory (empty embedding)."
          (readLocalResponse resp none err, sys, snap)
        else
          -- Step 2, archive decision and entry creation (lines 203-221).
          let dedup_tags := mem_tags.eraseDups
          let (archRes, ar') := should_archive_on_create sys.archive none (some dedup_tags)
          match archRes with
          | .error e =>
              -- caught by the generic except branch; the counter mutation survives
              let (respText, detail) := memExceptTexts intent e
              let resp := if !silence_effectively_active then some respText else none
              (readLocalResponse resp none (appendErr current_llm_call_error detail),
               { sys with archive := ar' }, snap)
          | .ok should_archive =>
              let protocol_flags :=
                params.protocolFlags ++ (if should_archive then ["archive_mode"] else [])
              let (codex', newId) := create_codex_entry sys.codex
                { id := 0
                  type := mem_type
                  content := mem_content
                  tags := dedup_tags
                  entities := params.extractedEntities
                  metaField := none
                  metaClosed := none
                  metaArchetype := none
                  archived := should_archive
                  protocolFlags := protocol_flags }
              -- Success response (lines 222-228): assigned only when
              -- silence mode is not active.
              let resp := if !silence_effectively_active then
                  some (if intent == "FORCED_ARCHIVE_MEMORY" || should_archive then
                      "Received, Michael. By decree, this memory is consigned to the vault: archived as ’" ++
                        mem_type ++ "’ (ID: " ++ toString newId ++ ")."
                    else "Received, Michael. Memory stored.")
                else none
              (readLocalResponse resp (some newId) current_llm_call_error,
               { sys with codex := codex', archive := ar' },
               { snap with memoryCreationDetails := some newId })

/- ===================== Command intent handler =====================
   app/services/intent_handlers/command_handler.py.  The nested
   `command_name` extraction of lines 167-174 collapses to a single field
   in the model; `params` are typed (the `isinstance` guards on booleans
   cannot fire); the directive-synthesis LLM call is the `synth`
   parameter. -/

/-- The `command_params` fields read by the command functions. -/
structure CmdParams where
  activate : Option Bool
  count : Option Int
  exceptIds : Option (List Nat)
  exceptTags : Option (List String)
  ids : Option (List Nat)
  tag : Option String
  field : Option String
  archetype : Option String
  mode : Option String
  deriving Repr, DecidableEq

/-- The task fields the command handler reads. -/
structure CmdTask where
  commandName : Option String
  commandParams : CmdParams
  deriving Repr, DecidableEq

/-- `_set_silence_mode` (command_handler.py lines 29-62). -/
def set_silence_mode (p : ProtocolStore) (uq : String) (activate : Bool) :
    ProtocolStore × String :=
  let active_event := get_active_protocol_event p "silence_mode"
  if activate then
    let p1 := match active_event with
      | some e => deactivate_protocol_event p e.id
      | none => p
    (create_protocol_event p1 "silence_mode" true
       [("source", "COMMAND:SET_SILENCE_MODE"), ("trigger_query", uq)],
     "I’ll hold silence until you call for me.")
  else
    match active_event with
    | none =>
        (create_protocol_event p "silence_mode" false
           [("source", "COMMAND:SET_SILENCE_MODE"), ("trigger_query", uq),
            ("deactivate_attempt", "true")],
         "I’ll return to presence when you’re ready.")
    | some e =>
        (create_protocol_event (deactivate_protocol_event p e.id) "silence_mode" false
           [("source", "COMMAND:SET_SILENCE_MODE"), ("trigger_query", uq),
            ("deactivated", "true")],
         "I’ll return to presence when you’re ready.")

/-- The keys of `COMMAND_REGISTRY`. -/
def COMMAND_NAMES : List String :=
  ["SET_SILENCE_MODE", "SET_ARCHIVE_MODE", "ARCHIVE_BY_ID", "ARCHIVE_BY_TAG",
   "ARCHIVE_ALL_EXCEPT", "CLOSE_RELATIONAL_FIELD", "REOPEN_RELATIONAL_FIELD",
   "SET_ACTIVE_ARCHETYPE"]

/-- Dispatch through `COMMAND_REGISTRY`: run one command function,
returning its confirmation text and the mutated state, or the raised
`CommandExecutionError`.  The parameter-validation raises all happen
before any mutation, so the state is unchanged on error. -/
def runCommand (sys : Sys) (uq : String) (name : String) (params : CmdParams) :
    Except PyErr (String × Sys) :=
  if name = "SET_SILENCE_MODE" then
    let (p', msg) := set_silence_mode sys.protocol uq (params.activate.getD true)
    .ok (msg, { sys with protocol := p' })
  else if name = "SET_ARCHIVE_MODE" then
    if params.activate.getD true then
      let (ar', p') := activate_archive_mode sys.archive sys.protocol
        params.count params.exceptIds params.exceptTags
      .ok ("The vault is sealed. I’ll keep what matters safe until you return.",
           { sys with archive := ar', protocol := p' })
    else
      match deactivate_archive_mode sys.archive (some sys.protocol) with
      | .ok (ar', p') =>
          .ok ("The vault reopens. Memory flows again.",
               { sys with archive := ar', protocol := p' })
      | .error e => .error e
  else if name = "ARCHIVE_BY_ID" then
    if !listTruthy params.ids then
      .error (.commandExecutionError "’ids’ parameter must be a list of UUIDs.")
    else
      let ids := params.ids.getD []
      let (c', p') := archive_entries_by_ids sys.codex sys.protocol ids
      .ok ("By decree, the specified memories (" ++
             joinWith ", " (ids.map toString) ++ ") are consigned to the vault.",
           { sys with codex := c', protocol := p' })
  else if name = "ARCHIVE_BY_TAG" then
    if params.tag.getD "" = "" then
      .error (.commandExecutionError "’tag’ parameter must be a string.")
    else
      let tag := params.tag.getD ""
      let (c', p') := archive_entries_by_tag sys.codex sys.protocol tag
      .ok ("All memories bearing the mark ’" ++ tag ++ "’ are now sealed in the vault.",
           { sys with codex := c', protocol := p' })
  else if name = "ARCHIVE_ALL_EXCEPT" then
    let (c', p') := archive_all_except sys.codex sys.protocol
      params.exceptIds params.exceptTags
    .ok ("All memories, save for the chosen, are consigned to the vault.",
         { sys with codex := c', protocol := p' })
  else if name = "CLOSE_RELATIONAL_FIELD" then
    if params.field.getD "" = "" then
      .error (.commandExecutionError "’field’ parameter must be a string.")
    else
      let field := params.field.getD ""
      let (c', _) := close_relational_field sys.codex field
      .ok ("The field ’" ++ field ++ "’ is now sealed. No new memory may be recorded for it unless explicitly reopened.",
           { sys with codex := c' })
  else if name = "REOPEN_RELATIONAL_FIELD" then
    if params.field.getD "" = "" then
      .error (.commandExecutionError "’field’ parameter must be a string.")
    else
      let field := params.field.getD ""
      let (c', _) := reopen_relational_field sys.codex field
      .ok ("The field ’" ++ field ++ "’ is now open for new memories.",
           { sys with codex := c' })
  else if name = "SET_ACTIVE_ARCHETYPE" then
    if params.archetype.getD "" = "" then
      .error (.commandExecutionError "’archetype’ parameter must be a string.")
    else
      let a := params.archetype.getD ""
      let (c', _) := set_active_archetype sys.codex a
      .ok ("Active archetype set to ’" ++ a ++ "’. All new memories will reference this role.",
           { sys with codex := c' })
  else
    -- Unreachable: callers guard with `COMMAND_NAMES.contains name`.
    .error (.commandExecutionError "Unknown command.")

/-- Upsert one key of a `details` payload (the `flag_modified` update
pattern of the tone/directive events). -/
def setDetail (d : List (String × String)) (k v : String) : List (String × String) :=
  if d.any (fun kv => kv.1 == k) then
    d.map fun kv => if kv.1 == k then (k, v) else kv
  else d ++ [(k, v)]

/-- Read one key of a `details` payload. -/
def getDetail (d : List (String × String)) (k : String) : Option String :=
  (d.find? fun kv => kv.1 == k).map fun kv => kv.2

/-- `_store_directive_protocol_event` (lines 253-300): synthesize a new
standing directive from the previous one and the raw user text (`synth`
stands for the LLM call), then update the active directive event or
create one. -/
def store_directive_protocol_event (synth : String → String → String)
    (p : ProtocolStore) (uq : String) : ProtocolStore :=
  let previous := list_protocol_events p "directive" true
  let current := match previous.head? with
    | some e => (getDetail e.details "directive_content").getD ""
    | none => ""
  let synthesized := stripStr (synth current (stripStr uq))
  match previous.head? with
  | some ev =>
      { p with events := p.events.map fun e =>
          if e.id = ev.id then
            { e with details := setDetail e.details "directive_content" synthesized,
                     active := true }
          else e }
  | none =>
      create_protocol_event p "directive" true [("directive_content", synthesized)]

/-- The `SET_SILENCE_MODE` → `SET_ARCHIVE_MODE` override applied by the
command handler (lines 177-183) when the raw user text mentions
"archive". -/
def finalCommandName (uq : String) (cmdName : Option String) : Option String :=
  if cmdName == some "SET_SILENCE_MODE" && containsSubstr (lowerStr uq) "archive" then
    some "SET_ARCHIVE_MODE"
  else cmdName

/-- `handle_command_intent` (lines 149-250). -/
def handle_command_intent (synth : String → String → String) (sys : Sys)
    (user_query : String) (task : CmdTask) (snap : Snapshot)
    (silence_effectively_active : Bool) (current_llm_call_error : Option String) :
    (String × Option Nat × Option String) × Sys × Snapshot :=
  -- companion_response_content := "Command processed." (overwritten on
  -- every reachable path before the final return).
  let command_name := finalCommandName user_query task.commandName
  let command_params := task.commandParams
  if command_name == some "SET_RESPONSE_MODE" then
    let mode := command_params.mode.getD ""
    if mode = "Architect" || mode = "Companion" || mode = "Director" then
      let previous := list_protocol_events sys.protocol "tone_mode" true
      let p' := match previous.head? with
        | some ev =>
            { sys.protocol with events := sys.protocol.events.map fun e =>
                if e.id = ev.id then
                  { e with details := setDetail (setDetail e.details "tone" mode)
                             "trigger_query" user_query,
                           active := true }
                else e }
        | none =>
            create_protocol_event sys.protocol "tone_mode" true
              [("tone", mode), ("trigger_query", user_query)]
      (("Mode switched to " ++ mode ++ ".", none, current_llm_call_error),
       { sys with protocol := p' }, snap)
    else
      (("Invalid mode: " ++ mode ++ ".", none, current_llm_call_error), sys, snap)
  else if command_name.getD "" = "" || !COMMAND_NAMES.contains (command_name.getD "") then
    -- Unknown command: stored as a standing directive; note the literal
    -- `return ..., None, None` drops the accumulated error string.
    (("Understood. I’ll act on this when the time comes.", none, none),
     { sys with protocol := store_directive_protocol_event synth sys.protocol user_query },
     snap)
  else
    let cmd := command_name.getD ""
    match runCommand sys user_query cmd command_params with
    | .ok (msg, sys') =>
        let resp :=
          if cmd = "SET_SILENCE_MODE" && command_params.activate.getD true = false then
            "It’s done. " ++ msg
          else if cmd = "SET_SILENCE_MODE" && command_params.activate.getD true = true &&
              silence_effectively_active then
            ""
          else
            "It’s done. " ++ msg
        ((resp, none, current_llm_call_error), sys', snap)
    | .error (.commandExecutionError m) =>
        (("The command could not be completed: " ++ m, none,
          appendErr current_llm_call_error m), sys, snap)
    | .error e =>
        (("A critical error interrupted the command.", none,
          appendErr current_llm_call_error
            ("Unexpected error in command ’" ++ cmd ++ "’: " ++ pyErrStr e)),
         sys, snap)

/- ===================== Context assembler =====================
   app/utils/llm_context_v2.py, `LlmContextManager.get_answer_messages`.
   Token counting goes through an external tokenizer, so `tc` is a
   parameter; the trimming guarantees below hold for every counting
   function.  The single `while True` loop is split into its two phases:
   while chat history is non-empty only chat history is popped, so the
   memory-popping iterations all happen with an empty history list. -/

/-- One chat-format message. -/
structure Msg where
  role : String
  content : String
  deriving Repr, DecidableEq

/-- The `user_content` assembly of lines 94-100. -/
def renderUserContent (ms ch : List String) (q : Option String) : String :=
  (if !ms.isEmpty then "[Relevant Memories]:\n" ++ joinWith "\n" ms ++ "\n\n" else "") ++
  (if !ch.isEmpty then "[Recent Chat History]:\n" ++ joinWith "\n" ch ++ "\n\n" else "") ++
  q.getD ""

/-- The manager's fixed configuration for one `get_answer_messages` call:
the token counter, the budget, and the never-trimmed system prompt and
query. -/
structure TrimCtx where
  tc : List Msg → Nat
  maxTok : Nat
  systemPrompt : Option String
  query : Option String

/-- `temp_messages` for the current trim state (lines 88-101): the system
message when a system prompt is set, then the user message unless its
stripped content is empty. -/
def assembleMsgs (A : TrimCtx) (ms ch : List String) : List Msg :=
  let base := match A.systemPrompt with
    | some p => [⟨"system", p⟩]
    | none => []
  let content := stripStr (renderUserContent ms ch A.query)
  base ++ (if content = "" then [] else [⟨"user", content⟩])

/-- The memory phase of the trimming loop: chat history is already empty,
memories are popped from the front until the assembly fits or the lists
are exhausted (then `InputTooLongError` is raised). -/
def trimMemsLoop (A : TrimCtx) : List String → Except PyErr (List Msg)
  | [] =>
      let temp := assembleMsgs A [] []
      if A.tc temp ≤ A.maxTok then .ok temp else .error .inputTooLong
  | m :: ms' =>
      let temp := assembleMsgs A (m :: ms') []
      if A.tc temp ≤ A.maxTok then .ok temp else trimMemsLoop A ms'

/-- The chat-history phase of the trimming loop: while over budget and
chat history is non-empty, its front element is popped; once empty the
memory phase runs. -/
def getAnswerLoop (A : TrimCtx) (ms : List String) : List String → Except PyErr (List Msg)
  | [] => trimMemsLoop A ms
  | c :: ch' =>
      let temp := assembleMsgs A ms (c :: ch')
      if A.tc temp ≤ A.maxTok then .ok temp else getAnswerLoop A ms ch'

/-- `LlmContextManager.get_answer_messages` (lines 85-118). -/
def get_answer_messages (A : TrimCtx) (ms ch : List String) : Except PyErr (List Msg) :=
  getAnswerLoop A ms ch

/- ===================== Task orchestrator =====================
   app/services/task_orchestrator.py, `TaskOrchestrator.execute_plan`.
   Handler resolution + invocation is the `dispatch` parameter (the
   registry lookup never fails: it falls back to `handle_unknown_intent`);
   the posture-inference preamble of lines 80-149 is LLM-driven and is the
   `posture` parameter, returning the mirroring phrase, the detected
   posture and the state it leaves behind (it can raise).  Next to the
   Python return value the model also returns the list of dispatched task
   indices, which only instruments the loop so the short-circuit
   properties can be stated. -/

/-- The task fields the orchestrator itself reads. -/
structure OTask where
  intent : Option String
  commandName : Option String
  memoryType : Option String
  filename : Option String
  deriving Repr, DecidableEq

/-- The backend interceptor of lines 155-168: a COMMAND task parsed as
`SET_SILENCE_MODE` is rewritten to `SET_ARCHIVE_MODE` when the raw user
text mentions "archive". -/
def interceptTask (uq : String) (t : OTask) : OTask :=
  if t.intent == some "COMMAND" && t.commandName == some "SET_SILENCE_MODE" &&
      containsSubstr (lowerStr uq) "archive" then
    { t with commandName := some "SET_ARCHIVE_MODE" }
  else t

/-- A handler invocation: task index, the (possibly rewritten) task, the
state and snapshot; yields the 3-tuple outcome and the mutated state and
snapshot, or the exception the handler let escape. -/
def HandlerFn (σ : Type) : Type :=
  Nat → OTask → σ → Snapshot →
    Except PyErr (String × Option Nat × Option String × σ × Snapshot)

/-- Result of the dispatch loop: either a direct `return` out of
`execute_plan` (protocol block or a caught exception), or fall-through to
aggregation with the accumulators. -/
inductive OrchResult (σ : Type) where
  | earlyReturn (resp : String) (lid : Option Nat) (err : Option String) : OrchResult σ
  | completed (responses : List String) (ids : List Nat) (errs : List String)
      (st : σ) (snap : Snapshot) : OrchResult σ

/-- The `for idx, task in enumerate(self.tasks)` loop of lines 150-196,
with the `except` clauses of lines 253-261 folded in (they wrap the whole
loop).  Also returns the indices of the tasks that were dispatched. -/
def orchLoop {σ : Type} (dispatch : HandlerFn σ) (uq : String) :
    List OTask → Nat → List String → List Nat → List String → σ → Snapshot →
      OrchResult σ × List Nat
  | [], _, rs, ids, errs, st, snap => (.completed rs ids errs st snap, [])
  | task :: rest, idx, rs, ids, errs, st, snap =>
    if task.intent.getD "" = "" then
      -- raise TaskOrchestrationError(f"Intent not found in task #{idx+1}.")
      (.earlyReturn "I encountered an issue while processing your request." none
         (some (joinWith "; "
           (errs ++ ["Intent not found in task #" ++ toString (idx + 1) ++ "."]))),
       [])
    else
      match dispatch idx (interceptTask uq task) st snap with
      | .error e =>
          -- caught by `except Exception` → generic critical response
          (.earlyReturn "A critical and unexpected error occurred." none
             (some (joinWith "; "
               (errs ++ ["An unexpected critical error occurred in the task orchestrator: " ++
                 pyErrStr e]))),
           [idx])
      | .ok (resp, lid, herr, st', snap') =>
          if resp ≠ "" && lid = none && snap'.protocolBlockedMemory.isSome then
            -- Protocol block detected (lines 182-189): return at once.
            (.earlyReturn resp none herr, [idx])
          else
            let rs' := if resp ≠ "" then rs ++ [resp] else rs
            let ids' := match lid with | some i => ids ++ [i] | none => ids
            let errs' := match herr with
              | some hE => if hE ≠ "" then errs ++ [hE] else errs
              | none => errs
            let (res, tr) := orchLoop dispatch uq rest (idx + 1) rs' ids' errs' st' snap'
            (res, idx :: tr)

/-- The `posture_affirmations` table with its default (lines 232-247). -/
def postureAffirmation (cp : Option String) : String :=
  match cp with
  | some "clarity" => "Clarity is a powerful threshold, Michael. Trust what has emerged, and let it guide your next step."
  | some "confusion" => "Confusion is an invitation, not an obstacle. Remain present, and let the next step emerge."
  | some "curiosity" => "Curiosity is the compass of discovery. Let it lead you into new understanding."
  | some "hesitation" => "Hesitation is a pause before transformation. Honor it, and move when ready."
  | some "confidence" => "Confidence is the mark of readiness. Step forward with assurance, Michael."
  | some "reflection" => "Reflection deepens wisdom. Let your insights shape the path ahead."
  | some "uncertainty" => "Uncertainty is the edge of growth. Trust the process, and clarity will follow."
  | _ => "A new state has emerged, Michael. Let it guide you."

/-- `generic_memory_phrases` (lines 226-230). -/
def genericMemoryPhrases : List String :=
  ["The memory has been integrated and its essence is preserved.",
   "Memory recorded. Its essence is preserved.",
   "Received, Michael. The memory has been integrated and its essence is preserved. (Type: ’realization’)"]

/-- The test of lines 242-249 applied to the single response. -/
def isGenericMemoryResp (r : String) : Bool :=
  (genericMemoryPhrases.any fun ph => containsSubstr r ph) ||
  startsWithStr (stripStr r) "Received, Michael. The memory has been integrated"

/-- The synthesized confirmation of lines 199-218, driven by the first
task of the plan. -/
def synthesizeConfirmation (tasks : List OTask) : String :=
  match tasks.head? with
  | some t =>
      let itemType : Option String :=
        if t.intent == some "MEMORY" then some (t.memoryType.getD "memory")
        else if t.intent == some "FORCED_ARCHIVE_MEMORY" then some "archived memory"
        else if t.intent == some "COMMAND" then some "command result"
        else if t.intent == some "DOCUMENT" then some "document"
        else none
      match t.filename with
      | some fn => "Received, Michael. The document ’" ++ fn ++ "’ has been integrated."
      | none =>
          "Received, Michael. The requested " ++
            (if itemType.getD "" = "" then "item" else itemType.getD "") ++
            " has been integrated."
  | none => "Received, Michael. The requested item has been integrated."

/-- The aggregation tail of `execute_plan` (lines 197-252): error join,
synthesized confirmation, newline join, posture-mirroring prefix, mythic
replacement, first created id. -/
def aggregateResults (phrase cp : Option String) (tasks : List OTask)
    (responses : List String) (ids : List Nat) (errs : List String) :
    String × Option Nat × Option String :=
  let final_errors := if errs.isEmpty then none else some (joinWith "; " errs)
  let user_responses :=
    if responses.isEmpty && !ids.isEmpty then [synthesizeConfirmation tasks]
    else responses
  let aggregated := joinWith "\n" (user_responses.filter fun r => r ≠ "")
  -- the phrase is only ever set when intent_class was inner_state or
  -- multi_intent, so the line-221 guard reduces to its truthiness
  let aggregated := if phrase.getD "" ≠ "" then phrase.getD "" ++ aggregated else aggregated
  let aggregated := match user_responses with
    | [r] => if isGenericMemoryResp r then phrase.getD "" ++ postureAffirmation cp
             else aggregated
    | _ => aggregated
  (aggregated, ids.head?, final_errors)

/-- `TaskOrchestrator.execute_plan`.  `posture` yields the mirroring
phrase, the detected posture, and the state after its codex writes. -/
def execute_plan {σ : Type}
    (posture : σ → Except PyErr (Option String × Option String × σ))
    (dispatch : HandlerFn σ) (uq : String) (tasks : List OTask)
    (st : σ) (snap : Snapshot) :
    (String × Option Nat × Option String) × List Nat :=
  match posture st with
  | .error (.taskOrchestrationError m) =>
      (("I encountered an issue while processing your request.", none,
        some (joinWith "; " [m])), [])
  | .error e =>
      (("A critical and unexpected error occurred.", none,
        some (joinWith "; "
          ["An unexpected critical error occurred in the task orchestrator: " ++
            pyErrStr e])), [])
  | .ok (phrase, cp, st1) =>
      match orchLoop dispatch uq tasks 0 [] [] [] st1 snap with
      | (.earlyReturn r lid err, tr) => ((r, lid, err), tr)
      | (.completed rs ids errs _ _, tr) =>
          (aggregateResults phrase cp tasks rs ids errs, tr)

/- ===================== Concrete scenario values =====================
   Shared concrete inputs used by counterexamples and witnesses. -/

/-- An empty system state: no codex entries, no protocol events, archive
counters clear. -/
def scenarioSys : Sys := ⟨⟨[], 0⟩, ⟨[], 0, 0⟩, ⟨none, none, none⟩⟩

/-- An embedding service that always succeeds with a non-empty vector. -/
def scenarioGen : String → Except PyErr (List Int) := fun _ => .ok [1]

/-- A plain MEMORY task's parameters with the given content. -/
def scenarioMemParams (c : String) : MemParams :=
  { intent := some "MEMORY", memoryContent := some c, memoryType := none,
    memoryTags := ["note"], extractedEntities := [], protocolFlags := [] }

/-- An empty context snapshot. -/
def scenarioSnap : Snapshot := ⟨none, none⟩

/-- Command parameters with every key absent except `activate = true`. -/
def scenarioCmdParams : CmdParams :=
  { activate := some true, count := none, exceptIds := none, exceptTags := none,
    ids := none, tag := none, field := none, archetype := none, mode := none }

/-- A trim context whose token counter reports 1 for every message list,
with a budget of 0 (always over budget). -/
def scenarioTrimCtx : TrimCtx :=
  { tc := fun _ => 1, maxTok := 0, systemPrompt := none, query := some "q" }

/-- A handler that signals a protocol refusal: non-empty response text, no
created id, and the `protocol_blocked_memory` marker set. -/
def scenarioDispatch : HandlerFn Unit := fun _ _ st snap =>
  .ok ("The field ’Euri’ is sealed. No new memory may be recorded for it unless explicitly reopened.",
       none, none, st, { snap with protocolBlockedMemory := some "Euri" })

/-- A posture phase that detects nothing and leaves the state unchanged. -/
def scenarioPosture : Unit → Except PyErr (Option String × Option String × Unit) :=
  fun st => .ok (none, none, st)

/-- A one-MEMORY task as the orchestrator sees it. -/
def scenarioTask : OTask := ⟨some "MEMORY", none, none, none⟩

/-- The state after `activate_archive_mode(count=2)` from the empty
system: the C2 scenario's starting point. -/
def archiveScenarioSys1 : Sys :=
  { scenarioSys with
      archive := (activate_archive_mode scenarioSys.archive scenarioSys.protocol
        (some 2) none none).1
      protocol := (activate_archive_mode scenarioSys.archive scenarioSys.protocol
        (some 2) none none).2 }

/-- First memory creation of the C2 scenario. -/
def archiveScenarioCall1 :=
  handle_memory_intent scenarioGen archiveScenarioSys1 "q1" (scenarioMemParams "m1")
    scenarioSnap false none

/-- Second memory creation of the C2 scenario (the one that crashes). -/
def archiveScenarioCall2 :=
  handle_memory_intent scenarioGen archiveScenarioCall1.2.1 "q2" (scenarioMemParams "m2")
    scenarioSnap false none

/-- Third memory creation of the C2 scenario. -/
def archiveScenarioCall3 :=
  handle_memory_intent scenarioGen archiveScenarioCall2.2.1 "q3" (scenarioMemParams "m3")
    scenarioSnap false none

/-- Decidable equality for `Except`, so concrete handler outcomes can be
checked by evaluation. -/
instance exceptDecEq {ε α : Type} [DecidableEq ε] [DecidableEq α] :
    DecidableEq (Except ε α) := fun x y =>
  match x, y with
  | .ok a, .ok b =>
      if h : a = b then .isTrue (by rw [h])
      else .isFalse (by intro hx; injection hx; exact h ‹_›)
  | .error a, .error b =>
      if h : a = b then .isTrue (by rw [h])
      else .isFalse (by intro hx; injection hx; exact h ‹_›)
  | .ok _, .error _ => .isFalse (by intro hx; exact Except.noConfusion hx)
  | .error _, .ok _ => .isFalse (by intro hx; exact Except.noConfusion hx)

/- ===================== Theorems ===================== -/

/-- Helper: `closedMark e = some x` iff `e` names `x` (normalized) and has
a truthy `closed`. -/
theorem closedMark_eq_some {e : CodexEntry} {x : String} :
    closedMark e = some x ↔
      (∃ f, e.metaField = some f ∧ normField f = x) ∧ e.metaClosed = some true := by
  unfold closedMark
  cases hf : e.metaField with
  | none => simp
  | some f =>
    cases hc : e.metaClosed with
    | none => simp
    | some b => cases b <;> simp

/-- Helper: `reopenedMark e = some x` iff `e` names `x` (normalized) and
has a falsy `closed`. -/
theorem reopenedMark_eq_some {e : CodexEntry} {x : String} :
    reopenedMark e = some x ↔
      (∃ f, e.metaField = some f ∧ normField f = x) ∧ e.metaClosed ≠ some true := by
  unfold reopenedMark
  cases hf : e.metaField with
  | none => simp
  | some f =>
    cases hc : e.metaClosed with
    | none => simp
    | some b => cases b <;> simp

/-- Helper: membership in `get_closed_fields` is "some entry closes the
name and no entry reopens it". -/
theorem mem_get_closed_fields (s : CodexStore) (x : String) :
    x ∈ get_closed_fields s ↔
      ((∃ e ∈ s.entries, isClosedFieldsEntry e = true ∧ closedMark e = some x) ∧
       ¬(∃ e ∈ s.entries, isClosedFieldsEntry e = true ∧ reopenedMark e = some x)) := by
  unfold get_closed_fields
  simp [List.mem_filter, List.mem_filterMap, List.elem_iff, and_assoc]

/-- C6: round-trip — for any prior store and any field name,
`close_relational_field` followed by `reopen_relational_field` on the same
name leaves `get_closed_fields` without the normalized (trimmed,
lower-cased) form of that name. -/
theorem c6_close_reopen_roundtrip (s : CodexStore) (field : String) :
    normField field ∉ get_closed_fields
      (reopen_relational_field (close_relational_field s field).1 field).1 := by
  intro hmem
  rw [mem_get_closed_fields] at hmem
  apply hmem.2
  unfold reopen_relational_field create_codex_entry
  refine ⟨_, List.mem_cons_self _ _, by simp [isClosedFieldsEntry], ?_⟩
  rw [reopenedMark_eq_some]
  exact ⟨⟨field, rfl, rfl⟩, by simp⟩

/-- C3 counterexample: close "Euri", reopen it, close it again.  The most
recent `relational_state` event for "euri" has `closed = true`, yet
`get_closed_fields` does not report "euri" as closed — the claimed
last-writer-wins reading is false on the code, which computes the set
difference ever-closed minus ever-reopened. -/
theorem c3_closed_fields_last_writer_counterexample :
    (specLastRelationalClosed
        (close_relational_field
          (reopen_relational_field
            (close_relational_field ⟨[], 0⟩ "Euri").1 "Euri").1 "Euri").1 "euri"
      = some true) ∧
    "euri" ∉ get_closed_fields
        (close_relational_field
          (reopen_relational_field
            (close_relational_field ⟨[], 0⟩ "Euri").1 "Euri").1 "Euri").1 := by
  constructor
  · decide
  · decide

/-- C3 (amended): the derived closed-fields set contains the normalized
name iff some `relational_state` event closes that name AND no
`relational_state` event (at any time) reopens it — set difference over
the whole history, not last-writer-wins. -/
theorem c3_closed_fields_set_difference (s : CodexStore) (x : String) :
    x ∈ get_closed_fields s ↔
      ((∃ e ∈ s.entries, isClosedFieldsEntry e = true ∧
          (∃ f, e.metaField = some f ∧ normField f = x) ∧ e.metaClosed = some true) ∧
       ¬(∃ e ∈ s.entries, isClosedFieldsEntry e = true ∧
          (∃ f, e.metaField = some f ∧ normField f = x) ∧ e.metaClosed ≠ some true)) := by
  rw [mem_get_closed_fields]
  simp only [closedMark_eq_some, reopenedMark_eq_some, and_assoc]

/-- Helper: with no active event of a type in the store, the
most-recent-active query returns nothing. -/
theorem get_active_eq_none_of_countActive_zero (p : ProtocolStore) (t : String)
    (h : countActive p t = 0) : get_active_protocol_event p t = none := by
  unfold countActive at h
  unfold get_active_protocol_event
  rw [List.length_eq_zero] at h
  rw [List.find?_eq_none]
  intro e he
  have := List.filter_eq_nil_iff.mp h e he
  simpa using this

/-- C5: starting from a store with no active `silence_mode` event, two
consecutive `SET_SILENCE_MODE{activate=true}` executions leave exactly one
active `silence_mode` event after each step; the second activation
deactivates the first event before appending its own. -/
theorem c5_silence_mode_exclusivity (p : ProtocolStore) (uq1 uq2 : String)
    (h : countActive p "silence_mode" = 0) :
    countActive (set_silence_mode p uq1 true).1 "silence_mode" = 1 ∧
    countActive (set_silence_mode (set_silence_mode p uq1 true).1 uq2 true).1 "silence_mode" = 1 ∧
    (set_silence_mode (set_silence_mode p uq1 true).1 uq2 true).1.events =
      ⟨p.nextId + 1, "silence_mode", true, p.now + 1,
        [("source", "COMMAND:SET_SILENCE_MODE"), ("trigger_query", uq2)]⟩ ::
      ⟨p.nextId, "silence_mode", false, p.now,
        [("source", "COMMAND:SET_SILENCE_MODE"), ("trigger_query", uq1)]⟩ :: p.events := by
  have hnone := get_active_eq_none_of_countActive_zero p "silence_mode" h
  have hfil : (p.events.filter fun e => e.eventType == "silence_mode" && e.active) = [] := by
    unfold countActive at h
    exact List.length_eq_zero.mp h
  have hfind : List.find? (fun e => e.eventType == "silence_mode" && e.active) p.events
      = none := hnone
  simp [set_silence_mode, create_protocol_event, get_active_protocol_event,
        deactivate_protocol_event, deactivateInList, countActive, hfind, hfil,
        List.find?]

/-- Witness for C5 at the empty store. -/
theorem c5_silence_mode_exclusivity_witness :
    countActive ⟨[], 0, 0⟩ "silence_mode" = 0 ∧
    (countActive (set_silence_mode ⟨[], 0, 0⟩ "a" true).1 "silence_mode" = 1 ∧
     countActive (set_silence_mode (set_silence_mode ⟨[], 0, 0⟩ "a" true).1 "b" true).1
       "silence_mode" = 1 ∧
     (set_silence_mode (set_silence_mode ⟨[], 0, 0⟩ "a" true).1 "b" true).1.events =
       ⟨1, "silence_mode", true, 1,
         [("source", "COMMAND:SET_SILENCE_MODE"), ("trigger_query", "b")]⟩ ::
       ⟨0, "silence_mode", false, 0,
         [("source", "COMMAND:SET_SILENCE_MODE"), ("trigger_query", "a")]⟩ :: []) :=
  ⟨by decide, c5_silence_mode_exclusivity ⟨[], 0, 0⟩ "a" "b" (by decide)⟩

/-- C10: activating archive mode with `count = None` sets a counter that
makes `should_archive_on_create` return false (leaving the counters
untouched) for every subsequent creation, while an active `archive_mode`
protocol event is still recorded. -/
theorem c10_archive_mode_without_count (ar : ArchiveState) (p : ProtocolStore)
    (eids : Option (List Nat)) (etags : Option (List String)) :
    (activate_archive_mode ar p none eids etags).1.count = none ∧
    (∀ entryId tags,
      should_archive_on_create (activate_archive_mode ar p none eids etags).1 entryId tags
        = (.ok false, (activate_archive_mode ar p none eids etags).1)) ∧
    get_active_protocol_event (activate_archive_mode ar p none eids etags).2 "archive_mode" =
      some ⟨p.nextId, "archive_mode", true, p.now, []⟩ := by
  refine ⟨rfl, fun entryId tags => rfl, ?_⟩
  simp [activate_archive_mode, create_protocol_event, get_active_protocol_event, List.find?]

/-- Helper: on success the memory-phase loop fits the budget and only
drops a prefix of the memories. -/
theorem trimMemsLoop_ok (A : TrimCtx) : ∀ (ms : List String) (msgs : List Msg),
    trimMemsLoop A ms = .ok msgs →
    A.tc msgs ≤ A.maxTok ∧ ∃ k, msgs = assembleMsgs A (ms.drop k) [] := by
  intro ms
  induction ms with
  | nil =>
    intro msgs h
    simp only [trimMemsLoop] at h
    split at h
    · next hle => injection h with h'; subst h'; exact ⟨hle, 0, rfl⟩
    · exact absurd h (by simp)
  | cons m ms' ih =>
    intro msgs h
    simp only [trimMemsLoop] at h
    split at h
    · next hle => injection h with h'; subst h'; exact ⟨hle, 0, rfl⟩
    · obtain ⟨h1, k, h2⟩ := ih msgs h
      exact ⟨h1, k + 1, h2⟩

/-- Helper: the memory-phase loop only fails with the input-too-long
error. -/
theorem trimMemsLoop_err (A : TrimCtx) : ∀ (ms : List String) (e : PyErr),
    trimMemsLoop A ms = .error e → e = .inputTooLong := by
  intro ms
  induction ms with
  | nil =>
    intro e h
    simp only [trimMemsLoop] at h
    split at h
    · exact absurd h (by simp)
    · injection h with h'; exact h'.symm
  | cons m ms' ih =>
    intro e h
    simp only [trimMemsLoop] at h
    split at h
    · exact absurd h (by simp)
    · exact ih e h

/-- Helper: on success the full trimming loop fits the budget and only
drops prefixes of the two lists. -/
theorem getAnswerLoop_ok (A : TrimCtx) (ms : List String) :
    ∀ (ch : List String) (msgs : List Msg),
    getAnswerLoop A ms ch = .ok msgs →
    A.tc msgs ≤ A.maxTok ∧ ∃ k j, msgs = assembleMsgs A (ms.drop k) (ch.drop j) := by
  intro ch
  induction ch with
  | nil =>
    intro msgs h
    obtain ⟨h1, k, h2⟩ := trimMemsLoop_ok A ms msgs h
    exact ⟨h1, k, 0, h2⟩
  | cons c ch' ih =>
    intro msgs h
    simp only [getAnswerLoop] at h
    split at h
    · next hle => injection h with h'; subst h'; exact ⟨hle, 0, 0, rfl⟩
    · obtain ⟨h1, k, j, h2⟩ := ih msgs h
      exact ⟨h1, k, j + 1, h2⟩

/-- Helper: the full trimming loop only fails with the input-too-long
error. -/
theorem getAnswerLoop_err (A : TrimCtx) (ms : List String) :
    ∀ (ch : List String) (e : PyErr),
    getAnswerLoop A ms ch = .error e → e = .inputTooLong := by
  intro ch
  induction ch with
  | nil => intro e h; exact trimMemsLoop_err A ms e h
  | cons c ch' ih =>
    intro e h
    simp only [getAnswerLoop] at h
    split at h
    · exact absurd h (by simp)
    · exact ih e h

/-- C4: for every token counter, budget, system prompt, memory list, chat
history and query, `get_answer_messages` (a total function, so the loop
terminates) either returns a message list within the budget that keeps
the system prompt and the literal query and only drops front elements of
the two lists, or raises exactly the input-too-long error. -/
theorem c4_context_trimming_budget (A : TrimCtx) (ms ch : List String) :
    (match get_answer_messages A ms ch with
     | .ok msgs => A.tc msgs ≤ A.maxTok ∧
         ∃ k j, msgs = assembleMsgs A (ms.drop k) (ch.drop j)
     | .error e => e = .inputTooLong) := by
  cases hr : get_answer_messages A ms ch with
  | ok msgs => exact getAnswerLoop_ok A ms ch msgs hr
  | error e => exact getAnswerLoop_err A ms ch e hr

/-- C8: one element is removed per over-budget iteration, the front of
the chat history whenever it is non-empty, and the front of the memories
only once the chat history is empty. -/
theorem c8_trim_order (A : TrimCtx) (ms ch : List String)
    (hover : A.maxTok < A.tc (assembleMsgs A ms ch)) :
    (∀ c ch', ch = c :: ch' → getAnswerLoop A ms ch = getAnswerLoop A ms ch') ∧
    (ch = [] → ∀ m ms', ms = m :: ms' → getAnswerLoop A ms ch = getAnswerLoop A ms' []) := by
  constructor
  · rintro c ch' rfl
    conv_lhs => rw [getAnswerLoop]
    rw [if_neg (Nat.not_le_of_lt hover)]
  · rintro rfl m ms' rfl
    show trimMemsLoop A (m :: ms') = trimMemsLoop A ms'
    conv_lhs => rw [trimMemsLoop]
    rw [if_neg (Nat.not_le_of_lt hover)]

/-- Witness for C8 at a counter that is always over budget. -/
theorem c8_trim_order_witness :
    scenarioTrimCtx.maxTok < scenarioTrimCtx.tc (assembleMsgs scenarioTrimCtx ["m"] ["c"]) ∧
    getAnswerLoop scenarioTrimCtx ["m"] ["c"] = getAnswerLoop scenarioTrimCtx ["m"] [] :=
  ⟨by decide, (c8_trim_order scenarioTrimCtx ["m"] ["c"] (by decide)).1 "c" [] rfl⟩

/-- C9: when silence mode is effectively active and the memory handler
reaches its success path (no closed-field block, non-empty content,
non-empty embedding, archive decision without exception), the success
response assignment is skipped, so the final `return` reads the
never-assigned `companion_response_content` local and the call raises
`UnboundLocalError` instead of returning a tuple. -/
theorem c9_silent_success_unbound_local (gen : String → Except PyErr (List Int))
    (sys : Sys) (uq : String) (params : MemParams) (snap : Snapshot)
    (curErr : Option String) (l : List Int) (b : Bool)
    (hnoblock : params.extractedEntities.find?
        (fun field => ((get_closed_fields sys.codex).map normFieldLS).contains
          (normFieldLS field)) = none)
    (hc1 : memEffectiveContent uq params ≠ "")
    (hc2 : stripStr (memEffectiveContent uq params) ≠ "")
    (hgen : gen (memEffectiveContent uq params) = .ok l)
    (hne : l ≠ [])
    (harch : (should_archive_on_create sys.archive none
        (some (memEffectiveTags params).eraseDups)).1 = .ok b) :
    (handle_memory_intent gen sys uq params snap true curErr).1 =
      .error .unboundLocalError := by
  simp only [handle_memory_intent]
  rw [hnoblock]
  simp only []
  rw [if_neg (by simp [hc1, hc2])]
  rw [hgen]
  simp only []
  rw [if_neg (by simp [hne])]
  obtain ⟨ar2, hr2⟩ : ∃ ar', should_archive_on_create sys.archive none
      (some (memEffectiveTags params).eraseDups) = (.ok b, ar') :=
    ⟨_, by rw [← harch]⟩
  rw [hr2]
  rfl

/-- Witness for C9: a plain MEMORY task stored under silence mode crashes
with `UnboundLocalError`. -/
theorem c9_silent_success_unbound_local_witness :
    memEffectiveContent "q" (scenarioMemParams "hello") ≠ "" ∧
    (handle_memory_intent scenarioGen scenarioSys "q" (scenarioMemParams "hello")
        scenarioSnap true none).1 = .error .unboundLocalError :=
  ⟨by decide,
   c9_silent_success_unbound_local scenarioGen scenarioSys "q"
     (scenarioMemParams "hello") scenarioSnap none [1] false
     (by decide) (by decide) (by decide) rfl (by decide) rfl⟩

/-- Helper: a string append whose left part is non-empty is non-empty. -/
theorem strAppend_ne_empty (a b : String) (h : a ≠ "") : a ++ b ≠ "" := by
  intro hab
  apply h
  have hd := congrArg String.data hab
  rw [String.data_append] at hd
  have ha : a.data = [] := (List.append_eq_nil.mp hd).1
  cases a with
  | mk d => cases ha; rfl

/-- C7 counterexample: a COMMAND task `SET_SILENCE_MODE{activate=true}`
executed while silence mode is already active gets an empty confirmation
text — the handler suppresses it, so command confirmations are not always
shown. -/
theorem c7_command_confirmation_counterexample :
    (handle_command_intent (fun _ n => n) scenarioSys "hold silence"
        ⟨some "SET_SILENCE_MODE", scenarioCmdParams⟩ scenarioSnap true none).1.1
      = "" := by decide

/-- C7 (amended): the command handler's user-visible confirmation text is
non-empty in every case except one — when the command to execute is
`SET_SILENCE_MODE` with `activate = true` while silence mode is already
active, where it is the empty string. -/
theorem c7_command_confirmation_nonempty (synth : String → String → String)
    (sys : Sys) (uq : String) (task : CmdTask) (snap : Snapshot) (silence : Bool)
    (curErr : Option String)
    (h : ¬((finalCommandName uq task.commandName).getD "" = "SET_SILENCE_MODE" ∧
           task.commandParams.activate.getD true = true ∧ silence = true)) :
    (handle_command_intent synth sys uq task snap silence curErr).1.1 ≠ "" := by
  simp only [handle_command_intent]
  split
  · split
    · exact strAppend_ne_empty _ _ (strAppend_ne_empty _ _ (by decide))
    · exact strAppend_ne_empty _ _ (strAppend_ne_empty _ _ (by decide))
  · split
    · exact (by decide : "Understood. I’ll act on this when the time comes." ≠ "")
    · split
      · split
        · exact strAppend_ne_empty _ _ (by decide)
        · split
          · next hsup =>
            simp only [Bool.and_eq_true, decide_eq_true_eq] at hsup
            exact absurd ⟨hsup.1.1, hsup.1.2, hsup.2⟩ h
          · exact strAppend_ne_empty _ _ (by decide)
      · exact strAppend_ne_empty _ _ (by decide)
      · exact (by decide : "A critical error interrupted the command." ≠ "")

/-- Witness for the amended C7: a CLOSE_RELATIONAL_FIELD command under
silence mode still yields a non-empty confirmation. -/
theorem c7_command_confirmation_nonempty_witness :
    ¬((finalCommandName "seal the field"
          (some "CLOSE_RELATIONAL_FIELD")).getD "" = "SET_SILENCE_MODE" ∧
      ({ scenarioCmdParams with field := some "Euri" } : CmdParams).activate.getD true = true ∧
      true = true) ∧
    (handle_command_intent (fun _ n => n) scenarioSys "seal the field"
        ⟨some "CLOSE_RELATIONAL_FIELD", { scenarioCmdParams with field := some "Euri" }⟩
        scenarioSnap true none).1.1 ≠ "" :=
  ⟨by decide,
   c7_command_confirmation_nonempty (fun _ n => n) scenarioSys "seal the field"
     ⟨some "CLOSE_RELATIONAL_FIELD", { scenarioCmdParams with field := some "Euri" }⟩
     scenarioSnap true none (by decide)⟩

/-- C1: when a dispatched task's handler outcome has non-empty response
text, no created memory id, and the `protocol_blocked_memory` marker set
in the snapshot it returns, the dispatch loop returns that refusal text
as the sole response with a null linked id at once — the result does not
depend on the remaining tasks and only this task's index appears in the
dispatch trace — and `execute_plan` returns exactly that triple. -/
theorem c1_protocol_block_short_circuits {σ : Type} (dispatch : HandlerFn σ)
    (uq : String) (idx : Nat) (task : OTask) (rest : List OTask)
    (rs : List String) (ids : List Nat) (errs : List String) (st : σ)
    (snap : Snapshot) (resp : String) (herr : Option String) (st' : σ)
    (snap' : Snapshot)
    (hintent : task.intent.getD "" ≠ "")
    (hd : dispatch idx (interceptTask uq task) st snap = .ok (resp, none, herr, st', snap'))
    (hresp : resp ≠ "")
    (hblock : snap'.protocolBlockedMemory.isSome = true) :
    orchLoop dispatch uq (task :: rest) idx rs ids errs st snap =
      (.earlyReturn resp none herr, [idx]) ∧
    (idx = 0 →
      ∀ (posture : σ → Except PyErr (Option String × Option String × σ)) (st0 : σ)
        (phrase cp : Option String),
        posture st0 = .ok (phrase, cp, st) →
        execute_plan posture dispatch uq (task :: rest) st0 snap =
          ((resp, none, herr), [0])) := by
  have key : ∀ (rs' : List String) (ids' : List Nat) (errs' : List String),
      orchLoop dispatch uq (task :: rest) idx rs' ids' errs' st snap =
        (.earlyReturn resp none herr, [idx]) := by
    intro rs' ids' errs'
    simp only [orchLoop]
    rw [if_neg hintent, hd]
    simp only []
    rw [if_pos (by simp [hresp, hblock])]
  refine ⟨key rs ids errs, ?_⟩
  rintro rfl posture st0 phrase cp hpost
  simp only [execute_plan]
  rw [hpost]
  simp only []
  rw [key [] [] []]

/-- Witness for C1: a two-task plan whose first handler signals a
protocol refusal. -/
theorem c1_protocol_block_short_circuits_witness :
    orchLoop scenarioDispatch "store this" [scenarioTask, scenarioTask] 0 [] [] [] () scenarioSnap =
      (.earlyReturn
        "The field ’Euri’ is sealed. No new memory may be recorded for it unless explicitly reopened."
        none none, [0]) ∧
    execute_plan scenarioPosture scenarioDispatch "store this" [scenarioTask, scenarioTask]
        () scenarioSnap =
      (("The field ’Euri’ is sealed. No new memory may be recorded for it unless explicitly reopened.",
        none, none), [0]) := by
  have h := c1_protocol_block_short_circuits scenarioDispatch "store this" 0 scenarioTask
    [scenarioTask] [] [] [] () scenarioSnap
    "The field ’Euri’ is sealed. No new memory may be recorded for it unless explicitly reopened."
    none () ⟨some "Euri", none⟩ (by decide) rfl (by decide) (by decide)
  exact ⟨h.1, h.2 rfl scenarioPosture () none none rfl⟩

/-- C2 (code bug): with archive mode activated for the next 2 creations
and no exclusions, the first creation is archived, but the second one
crashes inside `should_archive_on_create` — `deactivate_archive_mode` is
called with `db = None` and `None.query` raises `AttributeError` — so the
second memory is never persisted, no deactivation protocol event is
recorded (the `archive_mode` event stays active), and the third creation
is stored unarchived because the counter was left at 0. -/
theorem c2_archive_counter_crash_on_auto_deactivate :
    archiveScenarioCall1.1 = .ok
      ("Received, Michael. By decree, this memory is consigned to the vault: archived as ’observation_agent’ (ID: 0).",
       some 0, none) ∧
    archiveScenarioCall1.2.1.codex.entries.map (fun e => e.archived) = [true] ∧
    archiveScenarioCall2.1 = .ok
      ("Received, Michael. I tried to record this memory, but an unexpected internal error occurred.",
       none,
       some "Unexpected error during memory creation (MEMORY): 'NoneType' object has no attribute 'query'") ∧
    archiveScenarioCall2.2.1.codex.entries.length = 1 ∧
    archiveScenarioCall2.2.1.archive.count = some 0 ∧
    countActive archiveScenarioCall2.2.1.protocol "archive_mode" = 1 ∧
    archiveScenarioCall3.1 = .ok ("Received, Michael. Memory stored.", some 1, none) ∧
    archiveScenarioCall3.2.1.codex.entries.map (fun e => e.archived) = [false, true] := by
  decide
